import Mathlib

/-!
# CANopenNode, PIC32 main program (`stack/PIC32/main_PIC32.c`)

A shallow embedding of the communication-reset sequencer and the foreground
loop of `main` (from the `while(reset != CO_RESET_APP)` loop on) and of the
timer interrupt handler `CO_TimerInterruptHandler`.

Every register or variable write of the source and every call of a
collaborator (protocol stack, application hooks, watchdog) is recorded, in
program order, in a trace of `Action`s; the values the source reads from the
hardware or gets back from a collaborator come in as inputs.
-/

namespace CANopenPIC32

/-! ## Constants and build options -/

/-- Peripheral bus clock, `#define CO_PBCLK 32000`. -/
def CO_PBCLK : Nat := 32000

/-- Preprocessor options and header constants the file is compiled against.
The two emergency constants are declared in the stack headers; they are
parameters here. -/
structure Build where
  CO_NO_CAN_MODULES : Nat
  USE_EEPROM : Bool
  CO_EM_ISR_TIMER_OVERFLOW : Nat
  CO_EMC_SOFTWARE_INTERNAL : Nat

/-- CAN controller addresses used by `main`. -/
inductive CANAddr
  | ADDR_CAN1
  | ADDR_CAN2
  deriving DecidableEq, Repr

/-- Reset command returned by `CO_process` (`CO_NMT_reset_cmd_t` of the stack
headers). `main` compares it with `CO_RESET_NOT` and `CO_RESET_APP` only. -/
inductive CO_NMT_reset_cmd_t
  | CO_RESET_NOT
  | CO_RESET_COMM
  | CO_RESET_APP
  | CO_RESET_QUIT
  deriving DecidableEq, Repr

/-- Return value of `CO_init` (`CO_ReturnError_t` of the stack headers).
`main` compares it with `CO_ERROR_NO` only; every other value is a failure
carrying its code. -/
inductive CO_ReturnError_t
  | CO_ERROR_NO
  | failure (code : Int)
  deriving DecidableEq, Repr

/-- Registers and variables written by the code of this file. The four
`ODA_performance_*` names stand for the entries of the `OD_performance` array
at these indices; the entries are 16 bits wide, like the `uint16_t` values the
code stores in them, so a store keeps the value. -/
inductive Reg
  | CO_TMR_TMR
  | CO_TMR_PR
  | CO_TMR_CON
  | CO_TMR_ISR_FLAG
  | CO_TMR_ISR_PRIORITY
  | CO_TMR_ISR_ENABLE
  | CO_CAN_ISR_FLAG
  | CO_CAN_ISR_PRIORITY
  | CO_CAN_ISR_ENABLE
  | CO_CAN_ISR2_FLAG
  | CO_CAN_ISR2_PRIORITY
  | CO_CAN_ISR2_ENABLE
  | CO_timer1ms
  | ODA_performance_mainCycleTime
  | ODA_performance_mainCycleMaxTime
  | ODA_performance_timerCycleTime
  | ODA_performance_timerCycleMaxTime
  deriving DecidableEq, Repr

/-- Observable actions: a write to a register or variable, or a call of a
collaborator with its arguments. -/
inductive Action
  | write (r : Reg) (v : Nat)
  | ClearWDT
  | CO_init (addr : CANAddr) (nodeId : Nat) (bitRate : Nat)
  | CO_EE_init_2
  | communicationReset
  | CO_CANsetNormalMode (addr : CANAddr)
  | programAsync (timer1msDiff : Nat)
  | CO_process (timeDifference_ms : Nat)
  | CO_EE_process
  | programEnd
  | CO_delete (addr : CANAddr)
  | SoftReset
  | CO_process_SYNC_RPDO (timeDifference_us : Nat)
  | program1ms
  | CO_process_TPDO (syncWas : Bool) (timeDifference_us : Nat)
  | CO_errorReport (errorBit : Nat) (errorCode : Nat) (infoCode : Nat)
  deriving DecidableEq, Repr

/-- Control points of `main`. -/
inductive Loc
  /-- head of `while(reset != CO_RESET_APP)` -/
  | communicationLoop
  /-- head of `while(reset == CO_RESET_NOT)` -/
  | normalLoop
  /-- inside `while(1) ClearWDT();` after a failed `CO_init` -/
  | halt
  /-- the code after the outer loop ("program exit") -/
  | programExit
  /-- after `SoftReset()` -/
  | finished
  deriving DecidableEq, Repr

/-- Machine state: control point of `main`, memory, the trace of actions so
far, and the local variables of `main` that live across iterations. -/
structure Machine where
  loc : Loc
  mem : Reg → Nat
  trace : List Action
  reset : CO_NMT_reset_cmd_t
  timer1msPrevious : Nat
  TMR_TMR_PREV : Nat

/-- Values `main` obtains from outside during one step: the object-dictionary
configuration, the result of `CO_init`, the reading of the hardware timer
register and the result of `CO_process`. -/
structure Input where
  OD_CANNodeID : Nat
  OD_CANBitRate : Nat
  CO_init : CO_ReturnError_t
  CO_TMR_TMR : Nat
  CO_process : CO_NMT_reset_cmd_t

/-- Values the timer handler obtains from outside during one invocation: the
result of `CO_process_SYNC_RPDO`, whether the timer period elapsed again
while the handler ran (the hardware then raises the pending flag), and the
reading of the hardware timer register. -/
structure IsrInput where
  CO_process_SYNC_RPDO : Bool
  periodElapsed : Bool
  CO_TMR_TMR : Nat

/-- Conversion of a C `int` value to `uint16_t`. -/
def toU16 (x : Int) : Nat := (x % 65536).toNat

/-- Conversion to `uint8_t`. -/
def toU8 (x : Nat) : Nat := x % 256

/-- A store by the program: updates the memory and is recorded in the trace. -/
def Machine.write (m : Machine) (r : Reg) (v : Nat) : Machine :=
  { m with mem := fun x => if x = r then v else m.mem x,
           trace := m.trace ++ [Action.write r v] }

/-- A store by the hardware: updates the memory, leaves no action. -/
def Machine.hardwareSet (m : Machine) (r : Reg) (v : Nat) : Machine :=
  { m with mem := fun x => if x = r then v else m.mem x }

/-- A call of a collaborator, recorded in the trace. -/
def Machine.call (m : Machine) (a : Action) : Machine :=
  { m with trace := m.trace ++ [a] }

/-- Move `main` to the control point `l`. -/
def Machine.goto (m : Machine) (l : Loc) : Machine :=
  { m with loc := l }

/-- Assignment to the local variable `reset` of `main`. -/
def Machine.setReset (m : Machine) (r : CO_NMT_reset_cmd_t) : Machine :=
  { m with reset := r }

/-- Assignment to the local variable `timer1msPrevious` of `main`. -/
def Machine.setTimer1msPrevious (m : Machine) (v : Nat) : Machine :=
  { m with timer1msPrevious := v }

/-- Assignment to the local variable `TMR_TMR_PREV` of `main`. -/
def Machine.setTMR_TMR_PREV (m : Machine) (v : Nat) : Machine :=
  { m with TMR_TMR_PREV := v }

/-! ## `main`: communication reset (lines 128-197) -/

/-- Node-ID selection of `main`:
`nodeId = OD_CANNodeID; if(nodeId<1 || nodeId>127) nodeId = 0x10;`
with `nodeId` a `uint8_t`. -/
def main_nodeId (OD_CANNodeID : Nat) : Nat :=
  let nodeId := toU8 OD_CANNodeID
  if nodeId < 1 ∨ nodeId > 127 then 0x10 else nodeId

/-- One pass through the body of `while(reset != CO_RESET_APP)` up to the
head of the inner loop: disable the interrupts, read the configuration, call
`CO_init` (halting in `while(1) ClearWDT();` when it fails), set up the
variables, the timer and the interrupts, and enable them. -/
def main_communicationReset (b : Build) (i : Input) (m : Machine) : Machine :=
  let m := m.setTMR_TMR_PREV 0                      -- line 131
  let m := m.write Reg.CO_TMR_ISR_ENABLE 0          -- lines 136-138
  let m := m.write Reg.CO_CAN_ISR_ENABLE 0
  let m := m.write Reg.CO_CAN_ISR2_ENABLE 0
  let nodeId := main_nodeId i.OD_CANNodeID          -- lines 143-144
  let CANBitRate := i.OD_CANBitRate % 65536         -- line 145, a uint16_t
  let m := m.call (Action.CO_init CANAddr.ADDR_CAN1 nodeId CANBitRate)
  if i.CO_init ≠ CO_ReturnError_t.CO_ERROR_NO then   -- line 148
    m.goto Loc.halt                                 -- line 149
  else
    let m := if b.USE_EEPROM then m.call Action.CO_EE_init_2 else m
    let m := m.setTimer1msPrevious (m.mem Reg.CO_timer1ms)   -- lines 161-164
    let m := m.write Reg.ODA_performance_mainCycleMaxTime 0
    let m := m.write Reg.ODA_performance_timerCycleMaxTime 0
    let m := m.setReset CO_NMT_reset_cmd_t.CO_RESET_NOT
    let m := m.write Reg.CO_TMR_CON 0               -- lines 169-177
    let m := m.write Reg.CO_TMR_TMR 0
    let m := m.write Reg.CO_TMR_PR (CO_PBCLK - 1)
    let m := m.write Reg.CO_TMR_CON 0x8000
    let m := m.write Reg.CO_TMR_ISR_FLAG 0
    let m := m.write Reg.CO_TMR_ISR_PRIORITY 3
    let m := m.write Reg.CO_CAN_ISR_FLAG 0          -- lines 180-183
    let m := m.write Reg.CO_CAN_ISR_PRIORITY 5
    let m := m.write Reg.CO_CAN_ISR2_FLAG 0
    let m := m.write Reg.CO_CAN_ISR2_PRIORITY 5
    let m := m.call Action.communicationReset       -- lines 186-197
    let m := m.call (Action.CO_CANsetNormalMode CANAddr.ADDR_CAN1)
    let m := m.write Reg.CO_TMR_ISR_ENABLE 1
    let m := m.write Reg.CO_CAN_ISR_ENABLE 1
    let m :=
      if b.CO_NO_CAN_MODULES ≥ 2 then
        (m.call (Action.CO_CANsetNormalMode CANAddr.ADDR_CAN2)).write Reg.CO_CAN_ISR2_ENABLE 1
      else m
    m.goto Loc.normalLoop

/-! ## `main`: loop for normal program execution (lines 201-243) -/

/-- Elapsed ticks `timer1msDiff = timer1msCopy - timer1msPrevious`
(`uint16_t` operands promoted to `int`, result stored in a `uint16_t`). -/
def main_timer1msDiff (timer1msCopy timer1msPrevious : Nat) : Nat :=
  toU16 ((timer1msCopy : Int) - (timer1msPrevious : Int))

/-- Cycle time `t` computed from the timer reading `t0`, the previous reading
`TMR_TMR_PREV` and `timer1msDiff` (lines 212-221); every assignment to the
`uint16_t t` truncates the `int` value of its right-hand side. -/
def main_cycleTime (t0 TMR_TMR_PREV timer1msDiff : Nat) : Nat :=
  let t := t0
  if t ≥ TMR_TMR_PREV then
    let t := toU16 ((t : Int) - (TMR_TMR_PREV : Int))
    toU16 (((timer1msDiff : Int) * 100) + ((t : Int) / ((CO_PBCLK : Int) / 100)))
  else if timer1msDiff ≠ 0 then
    let t := toU16 ((TMR_TMR_PREV : Int) - (t : Int))
    toU16 (((timer1msDiff : Int) * 100) - ((t : Int) / ((CO_PBCLK : Int) / 100)))
  else 0

/-- One execution of the body of `while(reset == CO_RESET_NOT)`. -/
def main_normalExecution (b : Build) (i : Input) (m : Machine) : Machine :=
  let m := m.call Action.ClearWDT                   -- line 204
  let timer1msCopy := m.mem Reg.CO_timer1ms         -- lines 208-210
  let timer1msDiff := main_timer1msDiff timer1msCopy m.timer1msPrevious
  let m := m.setTimer1msPrevious timer1msCopy
  let t0 := i.CO_TMR_TMR % 65536                    -- line 211, a uint16_t
  let t := main_cycleTime t0 m.TMR_TMR_PREV timer1msDiff   -- lines 212-221
  let m := m.write Reg.ODA_performance_mainCycleTime t      -- lines 222-225
  let m :=
    if t > m.mem Reg.ODA_performance_mainCycleMaxTime then
      m.write Reg.ODA_performance_mainCycleMaxTime t
    else m
  let m := m.setTMR_TMR_PREV t0
  let m := m.call (Action.programAsync timer1msDiff)   -- line 229
  let m := m.call Action.ClearWDT                       -- line 231
  let m := m.call (Action.CO_process timer1msDiff)      -- line 235
  let m := m.setReset i.CO_process
  let m := m.call Action.ClearWDT                       -- line 237
  if b.USE_EEPROM then m.call Action.CO_EE_process else m

/-! ## `main`: control flow -/

/-- One step of `main` from a control point: a loop head tests its condition
and either runs the loop body once or leaves the loop; the halt loop
services the watchdog and stays; the program exit deletes the objects and
resets. -/
def main_step (b : Build) (i : Input) (m : Machine) : Machine :=
  match m.loc with
  | Loc.communicationLoop =>
      if m.reset ≠ CO_NMT_reset_cmd_t.CO_RESET_APP then main_communicationReset b i m
      else m.goto Loc.programExit
  | Loc.normalLoop =>
      if m.reset = CO_NMT_reset_cmd_t.CO_RESET_NOT then main_normalExecution b i m
      else m.goto Loc.communicationLoop
  | Loc.halt => m.call Action.ClearWDT
  | Loc.programExit =>
      let m := m.call Action.programEnd
      let m := m.call (Action.CO_delete CANAddr.ADDR_CAN1)
      let m := m.call Action.SoftReset
      m.goto Loc.finished
  | Loc.finished => m

/-- Steps of `main` along a script of inputs, one input per step. -/
def main_run (b : Build) : List Input → Machine → Machine
  | [], m => m
  | i :: rest, m => main_run b rest (main_step b i m)

/-- State of `main` when it reaches the outer loop for the first time, after
the system configuration, the alignment checks and `programStart()`:
`reset = CO_RESET_NOT`, memory as given. -/
def main_entry (mem : Reg → Nat) : Machine :=
  { loc := Loc.communicationLoop, mem := mem, trace := [],
    reset := CO_NMT_reset_cmd_t.CO_RESET_NOT, timer1msPrevious := 0, TMR_TMR_PREV := 0 }

/-! ## Timer interrupt handler (lines 259-296) -/

/-- One invocation of `CO_TimerInterruptHandler`. -/
def CO_TimerInterruptHandler (b : Build) (i : IsrInput) (m : Machine) : Machine :=
  let m := m.write Reg.CO_TMR_ISR_FLAG 0            -- line 264
  let m := m.write Reg.CO_timer1ms ((m.mem Reg.CO_timer1ms + 1) % 65536)   -- line 266
  let m := m.call (Action.CO_process_SYNC_RPDO 1000)                       -- line 272
  let syncWas := i.CO_process_SYNC_RPDO
  let m := m.call Action.program1ms                 -- line 278
  let m := m.call (Action.CO_process_TPDO syncWas 1000)   -- line 281
  let m := if i.periodElapsed then m.hardwareSet Reg.CO_TMR_ISR_FLAG 1 else m
  let m :=
    if m.mem Reg.CO_TMR_ISR_FLAG = 1 then
      let m := m.call (Action.CO_errorReport b.CO_EM_ISR_TIMER_OVERFLOW b.CO_EMC_SOFTWARE_INTERNAL 0)
      m.write Reg.CO_TMR_ISR_FLAG 0
    else m
  let t := (i.CO_TMR_TMR / (CO_PBCLK / 100)) % 65536   -- line 291, a uint16_t
  let m := m.write Reg.ODA_performance_timerCycleTime t
  if t > m.mem Reg.ODA_performance_timerCycleMaxTime then
    m.write Reg.ODA_performance_timerCycleMaxTime t
  else m

/-! ## Observations on traces -/

/-- Node identities of the `CO_init` calls in a trace, in order. -/
def initNodeIds : List Action → List Nat
  | [] => []
  | Action.CO_init _ nodeId _ :: rest => nodeId :: initNodeIds rest
  | _ :: rest => initNodeIds rest

/-- Number of `CO_process` calls in a trace. -/
def processCalls : List Action → Nat
  | [] => 0
  | Action.CO_process _ :: rest => processCalls rest + 1
  | _ :: rest => processCalls rest

/-- Number of stores of zero to the register `r` in a trace. -/
def zeroStores (r : Reg) (tr : List Action) : Nat :=
  tr.count (Action.write r 0)

/-- Actions of one communication-reset pass, up to and including `CO_init`. -/
def resetActionsToInit (i : Input) : List Action :=
  [Action.write Reg.CO_TMR_ISR_ENABLE 0,
   Action.write Reg.CO_CAN_ISR_ENABLE 0,
   Action.write Reg.CO_CAN_ISR2_ENABLE 0,
   Action.CO_init CANAddr.ADDR_CAN1 (main_nodeId i.OD_CANNodeID) (i.OD_CANBitRate % 65536)]

/-- Actions of one communication-reset pass after a successful `CO_init`. -/
def resetActionsAfterInit (b : Build) : List Action :=
  (if b.USE_EEPROM then [Action.CO_EE_init_2] else []) ++
  [Action.write Reg.ODA_performance_mainCycleMaxTime 0,
   Action.write Reg.ODA_performance_timerCycleMaxTime 0,
   Action.write Reg.CO_TMR_CON 0,
   Action.write Reg.CO_TMR_TMR 0,
   Action.write Reg.CO_TMR_PR 31999,
   Action.write Reg.CO_TMR_CON 0x8000,
   Action.write Reg.CO_TMR_ISR_FLAG 0,
   Action.write Reg.CO_TMR_ISR_PRIORITY 3,
   Action.write Reg.CO_CAN_ISR_FLAG 0,
   Action.write Reg.CO_CAN_ISR_PRIORITY 5,
   Action.write Reg.CO_CAN_ISR2_FLAG 0,
   Action.write Reg.CO_CAN_ISR2_PRIORITY 5,
   Action.communicationReset,
   Action.CO_CANsetNormalMode CANAddr.ADDR_CAN1,
   Action.write Reg.CO_TMR_ISR_ENABLE 1,
   Action.write Reg.CO_CAN_ISR_ENABLE 1] ++
  (if b.CO_NO_CAN_MODULES ≥ 2 then
    [Action.CO_CANsetNormalMode CANAddr.ADDR_CAN2, Action.write Reg.CO_CAN_ISR2_ENABLE 1]
   else [])

/-- Elapsed ticks `timer1msDiff` an iteration of the normal-execution loop
computes in the state `m`. -/
def iterationDiff (m : Machine) : Nat :=
  main_timer1msDiff (m.mem Reg.CO_timer1ms) m.timer1msPrevious

/-- Cycle time `t` an iteration of the normal-execution loop computes in the
state `m` on the input `i`. -/
def iterationTime (i : Input) (m : Machine) : Nat :=
  main_cycleTime (i.CO_TMR_TMR % 65536) m.TMR_TMR_PREV (iterationDiff m)

/-- Actions of one execution of the body of the normal-execution loop that
stores the cycle time `t` over the old maximum `oldMax` and passes the elapsed
ticks `d` on. -/
def normalActions (b : Build) (t oldMax d : Nat) : List Action :=
  [Action.ClearWDT, Action.write Reg.ODA_performance_mainCycleTime t] ++
  (if t > oldMax then [Action.write Reg.ODA_performance_mainCycleMaxTime t] else []) ++
  [Action.programAsync d, Action.ClearWDT, Action.CO_process d, Action.ClearWDT] ++
  (if b.USE_EEPROM then [Action.CO_EE_process] else [])

/-- Cycle time the timer handler computes from the timer reading. -/
def timerCycleTime (j : IsrInput) : Nat :=
  (j.CO_TMR_TMR / (CO_PBCLK / 100)) % 65536

/-- Actions of one invocation of the timer handler after the transmit step:
the overflow report when the period elapsed, then the instrumentation. -/
def timerActionsAfterTPDO (b : Build) (j : IsrInput) (oldMax : Nat) : List Action :=
  (if j.periodElapsed then
    [Action.CO_errorReport b.CO_EM_ISR_TIMER_OVERFLOW b.CO_EMC_SOFTWARE_INTERNAL 0,
     Action.write Reg.CO_TMR_ISR_FLAG 0]
   else []) ++
  [Action.write Reg.ODA_performance_timerCycleTime (timerCycleTime j)] ++
  (if timerCycleTime j > oldMax then
    [Action.write Reg.ODA_performance_timerCycleMaxTime (timerCycleTime j)]
   else [])

/-- Recogniser of `CO_process_SYNC_RPDO` calls. -/
def isSYNC_RPDO : Action → Bool
  | Action.CO_process_SYNC_RPDO _ => true
  | _ => false

/-- Recogniser of `program1ms` calls. -/
def isProgram1ms : Action → Bool
  | Action.program1ms => true
  | _ => false

/-- Recogniser of `CO_process_TPDO` calls. -/
def isTPDO : Action → Bool
  | Action.CO_process_TPDO _ _ => true
  | _ => false

/-- Recogniser of `CO_errorReport` calls. -/
def isErrorReport : Action → Bool
  | Action.CO_errorReport _ _ _ => true
  | _ => false

/-- Build with one CAN module and no EEPROM. -/
def build1 : Build :=
  { CO_NO_CAN_MODULES := 1, USE_EEPROM := false,
    CO_EM_ISR_TIMER_OVERFLOW := 0x22, CO_EMC_SOFTWARE_INTERNAL := 0x6100 }

/-- Build with two CAN modules and the EEPROM. -/
def build2 : Build :=
  { CO_NO_CAN_MODULES := 2, USE_EEPROM := true,
    CO_EM_ISR_TIMER_OVERFLOW := 0x22, CO_EMC_SOFTWARE_INTERNAL := 0x6100 }

/-- Memory with every register and variable zero. -/
def mem0 : Reg → Nat := fun _ => 0

/-- Sample input: stored node identity 200, 125 kbps, everything succeeds,
`CO_process` asks for no reset. -/
def input200 : Input :=
  { OD_CANNodeID := 200, OD_CANBitRate := 125,
    CO_init := CO_ReturnError_t.CO_ERROR_NO, CO_TMR_TMR := 0,
    CO_process := CO_NMT_reset_cmd_t.CO_RESET_NOT }

/-- Sample input: `CO_init` fails. -/
def inputInitFails : Input :=
  { OD_CANNodeID := 5, OD_CANBitRate := 125,
    CO_init := CO_ReturnError_t.failure (-2), CO_TMR_TMR := 0,
    CO_process := CO_NMT_reset_cmd_t.CO_RESET_NOT }

/-- Sample input of an iteration in which `CO_process` asks for a
communication reset; the hardware timer reads 1600. -/
def inputCommReset : Input :=
  { OD_CANNodeID := 5, OD_CANBitRate := 125,
    CO_init := CO_ReturnError_t.CO_ERROR_NO, CO_TMR_TMR := 1600,
    CO_process := CO_NMT_reset_cmd_t.CO_RESET_COMM }

/-- Sample input of a timer interrupt: no SYNC, no overrun, timer reads 2240. -/
def isrInput : IsrInput :=
  { CO_process_SYNC_RPDO := false, periodElapsed := false, CO_TMR_TMR := 2240 }

/-- Sample input of a timer interrupt that overran its period. -/
def isrInputOverrun : IsrInput :=
  { CO_process_SYNC_RPDO := true, periodElapsed := true, CO_TMR_TMR := 31000 }

/-- State reached from boot by a successful pass, one timer interrupt, one
iteration whose `CO_process` asks for a communication reset, and the exit of
the normal-execution loop: `main` is back at the head of the outer loop. -/
def machineBeforeSecondPass : Machine :=
  main_step build1 input200
    (main_step build1 inputCommReset
      (CO_TimerInterruptHandler build1 isrInput
        (main_step build1 input200 (main_entry mem0))))

/-- State in the normal-execution loop with `timer1msPrevious = 65530` and
the tick counter at 10. -/
def machineWrapped : Machine :=
  { loc := Loc.normalLoop,
    mem := fun r => if r = Reg.CO_timer1ms then 10 else 0,
    trace := [],
    reset := CO_NMT_reset_cmd_t.CO_RESET_NOT,
    timer1msPrevious := 65530,
    TMR_TMR_PREV := 31000 }

/-- Sample input of an iteration in which the hardware timer reads 31999. -/
def inputLateInPeriod : Input :=
  { OD_CANNodeID := 5, OD_CANBitRate := 125,
    CO_init := CO_ReturnError_t.CO_ERROR_NO, CO_TMR_TMR := 31999,
    CO_process := CO_NMT_reset_cmd_t.CO_RESET_NOT }

/-- Elapsed time in timer counts between two foreground iterations, as the
measurement understands it: `d` whole periods of `CO_PBCLK` counts plus the
difference of the timer readings `new` and `prev`. -/
def elapsedTimerCounts (d new prev : Nat) : Int :=
  (d : Int) * 32000 + (new : Int) - (prev : Int)

/-! ## Basic facts -/

theorem initNodeIds_append (xs ys : List Action) :
    initNodeIds (xs ++ ys) = initNodeIds xs ++ initNodeIds ys := by
  induction xs with
  | nil => rfl
  | cons a xs ih => cases a <;> simp [initNodeIds, ih]

theorem processCalls_append (xs ys : List Action) :
    processCalls (xs ++ ys) = processCalls xs + processCalls ys := by
  induction xs with
  | nil => simp [processCalls]
  | cons a xs ih =>
    cases a <;> simp [processCalls, ih]
    omega

theorem main_communicationReset_trace_failure (b : Build) (i : Input) (m : Machine)
    (h : i.CO_init ≠ CO_ReturnError_t.CO_ERROR_NO) :
    (main_communicationReset b i m).trace = m.trace ++ resetActionsToInit i := by
  simp [main_communicationReset, h, resetActionsToInit, Machine.write, Machine.call,
    Machine.goto, Machine.setTMR_TMR_PREV]

theorem main_communicationReset_trace_success (b : Build) (i : Input) (m : Machine)
    (h : i.CO_init = CO_ReturnError_t.CO_ERROR_NO) :
    (main_communicationReset b i m).trace =
      m.trace ++ resetActionsToInit i ++ resetActionsAfterInit b := by
  simp only [main_communicationReset, resetActionsToInit, resetActionsAfterInit, h]
  by_cases he : b.USE_EEPROM = true <;> by_cases hc : b.CO_NO_CAN_MODULES ≥ 2 <;>
    simp [he, hc, Machine.write, Machine.call, Machine.goto, Machine.setTMR_TMR_PREV,
      Machine.setReset, Machine.setTimer1msPrevious, CO_PBCLK]

theorem main_communicationReset_loc_failure (b : Build) (i : Input) (m : Machine)
    (h : i.CO_init ≠ CO_ReturnError_t.CO_ERROR_NO) :
    (main_communicationReset b i m).loc = Loc.halt := by
  simp [main_communicationReset, h, Machine.goto]

theorem main_communicationReset_mem_failure (b : Build) (i : Input) (m : Machine)
    (h : i.CO_init ≠ CO_ReturnError_t.CO_ERROR_NO) (r : Reg) :
    (main_communicationReset b i m).mem r =
      if r = Reg.CO_TMR_ISR_ENABLE ∨ r = Reg.CO_CAN_ISR_ENABLE ∨ r = Reg.CO_CAN_ISR2_ENABLE
      then 0 else m.mem r := by
  simp only [main_communicationReset]
  rw [if_pos h]
  cases r <;> simp [Machine.goto, Machine.write, Machine.call, Machine.setTMR_TMR_PREV]

theorem main_step_communicationLoop (b : Build) (i : Input) (m : Machine)
    (hloc : m.loc = Loc.communicationLoop)
    (hreset : m.reset ≠ CO_NMT_reset_cmd_t.CO_RESET_APP) :
    main_step b i m = main_communicationReset b i m := by
  simp [main_step, hloc, hreset]

theorem main_step_normalLoop (b : Build) (i : Input) (m : Machine)
    (hloc : m.loc = Loc.normalLoop)
    (hreset : m.reset = CO_NMT_reset_cmd_t.CO_RESET_NOT) :
    main_step b i m = main_normalExecution b i m := by
  simp [main_step, hloc, hreset]

theorem main_run_halt (b : Build) (script : List Input) (m : Machine)
    (hloc : m.loc = Loc.halt) :
    (main_run b script m).loc = Loc.halt ∧
    (main_run b script m).trace = m.trace ++ List.replicate script.length Action.ClearWDT ∧
    (main_run b script m).mem = m.mem ∧
    (main_run b script m).reset = m.reset := by
  induction script generalizing m with
  | nil => simp [main_run, hloc]
  | cons i rest ih =>
    have hstep : main_step b i m = m.call Action.ClearWDT := by
      simp [main_step, hloc]
    have hloc2 : (m.call Action.ClearWDT).loc = Loc.halt := by
      simp [Machine.call, hloc]
    obtain ⟨h1, h2, h3, h4⟩ := ih (m.call Action.ClearWDT) hloc2
    simp only [main_run, hstep]
    refine ⟨h1, ?_, ?_, ?_⟩
    · rw [h2]
      simp [Machine.call, List.replicate_succ]
    · rw [h3]; rfl
    · rw [h4]; rfl

theorem main_communicationReset_success (b : Build) (i : Input) (m : Machine)
    (h : i.CO_init = CO_ReturnError_t.CO_ERROR_NO) :
    (main_communicationReset b i m).loc = Loc.normalLoop ∧
    (main_communicationReset b i m).reset = CO_NMT_reset_cmd_t.CO_RESET_NOT ∧
    (main_communicationReset b i m).mem Reg.CO_TMR_ISR_PRIORITY = 3 ∧
    (main_communicationReset b i m).mem Reg.CO_CAN_ISR_PRIORITY = 5 ∧
    (main_communicationReset b i m).mem Reg.CO_CAN_ISR2_PRIORITY = 5 ∧
    (main_communicationReset b i m).mem Reg.ODA_performance_mainCycleMaxTime = 0 ∧
    (main_communicationReset b i m).mem Reg.ODA_performance_timerCycleMaxTime = 0 := by
  simp only [main_communicationReset]
  rw [if_neg (by simp [h])]
  by_cases he : b.USE_EEPROM = true <;> by_cases hc : b.CO_NO_CAN_MODULES ≥ 2 <;>
    simp [he, hc, Machine.write, Machine.call, Machine.goto, Machine.setTMR_TMR_PREV,
      Machine.setReset, Machine.setTimer1msPrevious]

theorem main_normalExecution_trace (b : Build) (i : Input) (m : Machine) :
    (main_normalExecution b i m).trace =
      m.trace ++ normalActions b (iterationTime i m)
        (m.mem Reg.ODA_performance_mainCycleMaxTime) (iterationDiff m) := by
  simp only [main_normalExecution, normalActions, iterationTime, iterationDiff]
  by_cases he : b.USE_EEPROM = true <;>
  by_cases ht : main_cycleTime (i.CO_TMR_TMR % 65536) m.TMR_TMR_PREV
      (main_timer1msDiff (m.mem Reg.CO_timer1ms) m.timer1msPrevious) >
      m.mem Reg.ODA_performance_mainCycleMaxTime <;>
    simp [he, ht, Machine.write, Machine.call, Machine.setTMR_TMR_PREV,
      Machine.setReset, Machine.setTimer1msPrevious]

theorem main_normalExecution_fields (b : Build) (i : Input) (m : Machine) :
    (main_normalExecution b i m).loc = m.loc ∧
    (main_normalExecution b i m).reset = i.CO_process ∧
    (main_normalExecution b i m).timer1msPrevious = m.mem Reg.CO_timer1ms ∧
    (main_normalExecution b i m).TMR_TMR_PREV = i.CO_TMR_TMR % 65536 := by
  simp only [main_normalExecution]
  by_cases he : b.USE_EEPROM = true <;>
  by_cases ht : main_cycleTime (i.CO_TMR_TMR % 65536) m.TMR_TMR_PREV
      (main_timer1msDiff (m.mem Reg.CO_timer1ms) m.timer1msPrevious) >
      m.mem Reg.ODA_performance_mainCycleMaxTime <;>
    simp [he, ht, Machine.write, Machine.call, Machine.setTMR_TMR_PREV,
      Machine.setReset, Machine.setTimer1msPrevious]

theorem main_normalExecution_mem (b : Build) (i : Input) (m : Machine) (r : Reg) :
    (main_normalExecution b i m).mem r =
      if r = Reg.ODA_performance_mainCycleTime then iterationTime i m
      else if r = Reg.ODA_performance_mainCycleMaxTime then
        max (m.mem Reg.ODA_performance_mainCycleMaxTime) (iterationTime i m)
      else m.mem r := by
  simp only [main_normalExecution, iterationTime, iterationDiff]
  by_cases he : b.USE_EEPROM = true <;>
  by_cases ht : main_cycleTime (i.CO_TMR_TMR % 65536) m.TMR_TMR_PREV
      (main_timer1msDiff (m.mem Reg.CO_timer1ms) m.timer1msPrevious) >
      m.mem Reg.ODA_performance_mainCycleMaxTime <;>
  cases r <;>
    simp [he, ht, Machine.write, Machine.call, Machine.setTMR_TMR_PREV,
      Machine.setReset, Machine.setTimer1msPrevious] <;> omega

theorem CO_TimerInterruptHandler_trace (b : Build) (j : IsrInput) (m : Machine) :
    (CO_TimerInterruptHandler b j m).trace =
      m.trace ++
        ([Action.write Reg.CO_TMR_ISR_FLAG 0,
          Action.write Reg.CO_timer1ms ((m.mem Reg.CO_timer1ms + 1) % 65536),
          Action.CO_process_SYNC_RPDO 1000,
          Action.program1ms,
          Action.CO_process_TPDO j.CO_process_SYNC_RPDO 1000] ++
         timerActionsAfterTPDO b j (m.mem Reg.ODA_performance_timerCycleMaxTime)) := by
  simp only [CO_TimerInterruptHandler, timerActionsAfterTPDO, timerCycleTime]
  by_cases he : j.periodElapsed = true <;>
  by_cases ht : j.CO_TMR_TMR / (CO_PBCLK / 100) % 65536 >
      m.mem Reg.ODA_performance_timerCycleMaxTime <;>
    simp [he, ht, Machine.write, Machine.call, Machine.hardwareSet]

theorem CO_TimerInterruptHandler_mem (b : Build) (j : IsrInput) (m : Machine) (r : Reg) :
    (CO_TimerInterruptHandler b j m).mem r =
      if r = Reg.CO_TMR_ISR_FLAG then 0
      else if r = Reg.CO_timer1ms then (m.mem Reg.CO_timer1ms + 1) % 65536
      else if r = Reg.ODA_performance_timerCycleTime then timerCycleTime j
      else if r = Reg.ODA_performance_timerCycleMaxTime then
        max (m.mem Reg.ODA_performance_timerCycleMaxTime) (timerCycleTime j)
      else m.mem r := by
  simp only [CO_TimerInterruptHandler, timerCycleTime]
  by_cases he : j.periodElapsed = true <;>
  by_cases ht : j.CO_TMR_TMR / (CO_PBCLK / 100) % 65536 >
      m.mem Reg.ODA_performance_timerCycleMaxTime <;>
  cases r <;>
    simp [he, ht, Machine.write, Machine.call, Machine.hardwareSet] <;> omega

theorem main_run_append (b : Build) (xs ys : List Input) (m : Machine) :
    main_run b (xs ++ ys) m = main_run b ys (main_run b xs m) := by
  induction xs generalizing m with
  | nil => rfl
  | cons i rest ih => simp [main_run, ih]

theorem main_normalExecution_processCalls (b : Build) (i : Input) (m : Machine) :
    processCalls (main_normalExecution b i m).trace = processCalls m.trace + 1 := by
  rw [main_normalExecution_trace, processCalls_append]
  unfold normalActions
  by_cases h1 : iterationTime i m > m.mem Reg.ODA_performance_mainCycleMaxTime <;>
  by_cases h2 : b.USE_EEPROM = true <;>
    simp [h1, h2, processCalls]

theorem main_run_normal (b : Build) (pre : List Input) (m : Machine)
    (hloc : m.loc = Loc.normalLoop)
    (hreset : m.reset = CO_NMT_reset_cmd_t.CO_RESET_NOT)
    (hpre : ∀ i ∈ pre, i.CO_process = CO_NMT_reset_cmd_t.CO_RESET_NOT) :
    main_run b pre m = pre.foldl (fun s i => main_normalExecution b i s) m ∧
    (main_run b pre m).loc = Loc.normalLoop ∧
    (main_run b pre m).reset = CO_NMT_reset_cmd_t.CO_RESET_NOT ∧
    processCalls (main_run b pre m).trace = processCalls m.trace + pre.length := by
  induction pre generalizing m with
  | nil => simp [main_run, hloc, hreset]
  | cons i rest ih =>
    have hf := main_normalExecution_fields b i m
    have hi : i.CO_process = CO_NMT_reset_cmd_t.CO_RESET_NOT := hpre i (by simp)
    have hrest : ∀ k ∈ rest, k.CO_process = CO_NMT_reset_cmd_t.CO_RESET_NOT :=
      fun k hk => hpre k (by simp [hk])
    obtain ⟨h1, h2, h3, h4⟩ := ih (main_normalExecution b i m)
      (by rw [hf.1, hloc]) (by rw [hf.2.1, hi]) hrest
    simp only [main_run, main_step_normalLoop b i m hloc hreset, List.foldl_cons,
      List.length_cons]
    refine ⟨h1, h2, h3, ?_⟩
    rw [h4, main_normalExecution_processCalls]
    omega

theorem normalActions_zeroStores (b : Build) (t oldMax d : Nat) (r : Reg) :
    zeroStores r (normalActions b t oldMax d) =
      if r = Reg.ODA_performance_mainCycleTime ∧ t = 0 then 1 else 0 := by
  unfold zeroStores normalActions
  by_cases h1 : t > oldMax <;> by_cases h2 : b.USE_EEPROM = true <;>
  by_cases h3 : t = 0 <;> cases r <;>
    simp [h1, h2, h3, List.count_cons]

theorem timerActions_zeroStores_max (b : Build) (j : IsrInput) (oldMax : Nat) :
    zeroStores Reg.ODA_performance_mainCycleMaxTime (timerActionsAfterTPDO b j oldMax) = 0 ∧
    zeroStores Reg.ODA_performance_timerCycleMaxTime (timerActionsAfterTPDO b j oldMax) = 0 := by
  unfold zeroStores timerActionsAfterTPDO
  by_cases h1 : timerCycleTime j > oldMax <;> by_cases h2 : j.periodElapsed = true <;>
    simp [h1, h2, List.count_cons] <;> omega

theorem toU16_cast (x : Int) : ((toU16 x : Nat) : Int) = x % 65536 := by
  unfold toU16
  exact Int.toNat_of_nonneg (Int.emod_nonneg _ (by decide))

theorem main_cycleTime_forward (t0 prev d : Nat) (h0 : t0 ≤ 31999) (hd : d ≤ 654)
    (hge : prev ≤ t0) :
    main_cycleTime t0 prev d = d * 100 + (t0 - prev) / 320 := by
  unfold main_cycleTime
  simp only []
  rw [if_pos hge]
  have h1 := toU16_cast ((t0 : Int) - (prev : Int))
  have h2 := toU16_cast (((d : Int) * 100) +
    ((toU16 ((t0 : Int) - (prev : Int)) : Nat) : Int) / ((CO_PBCLK : Int) / 100))
  norm_num [CO_PBCLK] at h2 ⊢
  omega

theorem main_cycleTime_wrapped (t0 prev d : Nat) (hp : prev ≤ 31999) (hd : d ≤ 654)
    (hlt : t0 < prev) (hd1 : 1 ≤ d) :
    main_cycleTime t0 prev d = d * 100 - (prev - t0) / 320 ∧
    (prev - t0) / 320 ≤ d * 100 := by
  unfold main_cycleTime
  simp only []
  rw [if_neg (by omega), if_pos (by omega)]
  have h1 := toU16_cast ((prev : Int) - (t0 : Int))
  have h2 := toU16_cast (((d : Int) * 100) -
    ((toU16 ((prev : Int) - (t0 : Int)) : Nat) : Int) / ((CO_PBCLK : Int) / 100))
  norm_num [CO_PBCLK] at h2 ⊢
  omega

theorem floor_div_320 (E S : Int) (h1 : 320 * S ≤ E) (h2 : E < 320 * S + 320) :
    ⌊(E : ℚ) / 320⌋ = S ∧ |(S : ℚ) - (E : ℚ) / 320| < 1 := by
  have g1 : (320 : ℚ) * S ≤ E := by exact_mod_cast h1
  have g2 : (E : ℚ) < 320 * S + 320 := by exact_mod_cast h2
  have a1 : (S : ℚ) ≤ (E : ℚ) / 320 := by
    rw [le_div_iff₀ (by norm_num)]; linarith
  have a2 : (E : ℚ) / 320 < S + 1 := by
    rw [div_lt_iff₀ (by norm_num)]; linarith
  refine ⟨Int.floor_eq_iff.mpr ⟨a1, a2⟩, ?_⟩
  rw [abs_lt]
  constructor <;> linarith

theorem ceil_div_320 (E S : Int) (h1 : 320 * S - 320 < E) (h2 : E ≤ 320 * S) :
    ⌈(E : ℚ) / 320⌉ = S ∧ |(S : ℚ) - (E : ℚ) / 320| < 1 := by
  have g1 : (320 : ℚ) * S - 320 < E := by exact_mod_cast h1
  have g2 : (E : ℚ) ≤ 320 * S := by exact_mod_cast h2
  have a1 : (S : ℚ) - 1 < (E : ℚ) / 320 := by
    rw [lt_div_iff₀ (by norm_num)]; linarith
  have a2 : (E : ℚ) / 320 ≤ S := by
    rw [div_le_iff₀ (by norm_num)]; linarith
  refine ⟨Int.ceil_eq_iff.mpr ⟨a1, a2⟩, ?_⟩
  rw [abs_lt]
  constructor <;> linarith

/-! ## Claims -/

/-- C1: for every 8-bit configured node identity n read at the start of a
(re)initialization pass of main, the pass calls CO_init once, with identity n
when 1 ≤ n ≤ 127 and with identity 16 (0x10) when n = 0 or n ≥ 128. -/
theorem C1_nodeId_passed_to_CO_init (b : Build) (i : Input) (m : Machine)
    (hn : i.OD_CANNodeID < 256)
    (hloc : m.loc = Loc.communicationLoop)
    (hreset : m.reset ≠ CO_NMT_reset_cmd_t.CO_RESET_APP) :
    (1 ≤ i.OD_CANNodeID ∧ i.OD_CANNodeID ≤ 127 →
      initNodeIds (main_step b i m).trace = initNodeIds m.trace ++ [i.OD_CANNodeID]) ∧
    (i.OD_CANNodeID = 0 ∨ 128 ≤ i.OD_CANNodeID →
      initNodeIds (main_step b i m).trace = initNodeIds m.trace ++ [16]) := by
  rw [main_step_communicationLoop b i m hloc hreset]
  have hids : initNodeIds (main_communicationReset b i m).trace =
      initNodeIds m.trace ++ [main_nodeId i.OD_CANNodeID] := by
    by_cases herr : i.CO_init = CO_ReturnError_t.CO_ERROR_NO
    · rw [main_communicationReset_trace_success b i m herr, initNodeIds_append,
        initNodeIds_append]
      have h2 : initNodeIds (resetActionsAfterInit b) = [] := by
        unfold resetActionsAfterInit
        by_cases he : b.USE_EEPROM = true <;> by_cases hc : b.CO_NO_CAN_MODULES ≥ 2 <;>
          simp [he, hc, initNodeIds]
      simp [h2, resetActionsToInit, initNodeIds]
    · rw [main_communicationReset_trace_failure b i m herr, initNodeIds_append]
      simp [resetActionsToInit, initNodeIds]
  rw [hids]
  have hmod : toU8 i.OD_CANNodeID = i.OD_CANNodeID := Nat.mod_eq_of_lt hn
  constructor
  · intro h
    have : main_nodeId i.OD_CANNodeID = i.OD_CANNodeID := by
      simp only [main_nodeId, hmod]
      rw [if_neg (by omega)]
    rw [this]
  · intro h
    have : main_nodeId i.OD_CANNodeID = 16 := by
      simp only [main_nodeId, hmod]
      rw [if_pos (by omega)]
    rw [this]

/-- C1 witness: a stored identity of 200 makes CO_init be called with identity 16. -/
theorem C1_nodeId_200_witness :
    initNodeIds (main_step build1 input200 (main_entry mem0)).trace = [16] :=
  (C1_nodeId_passed_to_CO_init build1 input200 (main_entry mem0)
    (by decide) rfl (by decide)).2 (Or.inr (by decide))

/-- C4: when CO_init returns anything other than CO_ERROR_NO, the pass ends in
the halt state with the three interrupt enables cleared and nothing done after
the CO_init call; from there every further step stays in the halt state and
does nothing but service the watchdog once, leaving the memory untouched. -/
theorem C4_init_failure_halts (b : Build) (i : Input) (m : Machine) (script : List Input)
    (hloc : m.loc = Loc.communicationLoop)
    (hreset : m.reset ≠ CO_NMT_reset_cmd_t.CO_RESET_APP)
    (herr : i.CO_init ≠ CO_ReturnError_t.CO_ERROR_NO) :
    (main_step b i m).loc = Loc.halt ∧
    (main_step b i m).trace = m.trace ++
      [Action.write Reg.CO_TMR_ISR_ENABLE 0,
       Action.write Reg.CO_CAN_ISR_ENABLE 0,
       Action.write Reg.CO_CAN_ISR2_ENABLE 0,
       Action.CO_init CANAddr.ADDR_CAN1 (main_nodeId i.OD_CANNodeID)
         (i.OD_CANBitRate % 65536)] ∧
    (main_step b i m).mem Reg.CO_TMR_ISR_ENABLE = 0 ∧
    (main_step b i m).mem Reg.CO_CAN_ISR_ENABLE = 0 ∧
    (main_step b i m).mem Reg.CO_CAN_ISR2_ENABLE = 0 ∧
    (main_step b i m).mem Reg.ODA_performance_mainCycleMaxTime =
      m.mem Reg.ODA_performance_mainCycleMaxTime ∧
    (main_step b i m).mem Reg.ODA_performance_timerCycleMaxTime =
      m.mem Reg.ODA_performance_timerCycleMaxTime ∧
    (main_run b script (main_step b i m)).loc = Loc.halt ∧
    (main_run b script (main_step b i m)).trace =
      (main_step b i m).trace ++ List.replicate script.length Action.ClearWDT ∧
    (main_run b script (main_step b i m)).mem = (main_step b i m).mem := by
  rw [main_step_communicationLoop b i m hloc hreset]
  have hl := main_communicationReset_loc_failure b i m herr
  have hm := main_communicationReset_mem_failure b i m herr
  obtain ⟨r1, r2, r3, _⟩ := main_run_halt b script _ hl
  refine ⟨hl, ?_, ?_, ?_, ?_, ?_, ?_, r1, r2, r3⟩
  · rw [main_communicationReset_trace_failure b i m herr]; rfl
  · rw [hm]; simp
  · rw [hm]; simp
  · rw [hm]; simp
  · rw [hm]; simp
  · rw [hm]; simp

/-- C4 witness: a failing CO_init at boot, followed by three more steps. -/
theorem C4_init_failure_halts_witness :
    (main_run build2 [input200, input200, input200]
      (main_step build2 inputInitFails (main_entry mem0))).loc = Loc.halt ∧
    (main_run build2 [input200, input200, input200]
      (main_step build2 inputInitFails (main_entry mem0))).trace =
      (main_step build2 inputInitFails (main_entry mem0)).trace ++
        [Action.ClearWDT, Action.ClearWDT, Action.ClearWDT] :=
  have h := C4_init_failure_halts build2 inputInitFails (main_entry mem0)
    [input200, input200, input200] rfl (by decide) (by decide)
  ⟨h.2.2.2.2.2.2.2.1, h.2.2.2.2.2.2.2.2.1⟩

/-- C8: after every communication-reset pass that reaches normal operation
the priority programmed for the CAN1 and for the CAN2 interrupt is 5 and the
one programmed for the timer interrupt is 3, so both bus priorities are
strictly greater than the timer priority, for every value of
CO_NO_CAN_MODULES. -/
theorem C8_bus_priority_above_timer (b : Build) (i : Input) (m : Machine)
    (hloc : m.loc = Loc.communicationLoop)
    (hreset : m.reset ≠ CO_NMT_reset_cmd_t.CO_RESET_APP)
    (hok : i.CO_init = CO_ReturnError_t.CO_ERROR_NO) :
    (main_step b i m).loc = Loc.normalLoop ∧
    (main_step b i m).mem Reg.CO_TMR_ISR_PRIORITY = 3 ∧
    (main_step b i m).mem Reg.CO_CAN_ISR_PRIORITY = 5 ∧
    (main_step b i m).mem Reg.CO_CAN_ISR2_PRIORITY = 5 ∧
    (main_step b i m).mem Reg.CO_TMR_ISR_PRIORITY <
      (main_step b i m).mem Reg.CO_CAN_ISR_PRIORITY ∧
    (main_step b i m).mem Reg.CO_TMR_ISR_PRIORITY <
      (main_step b i m).mem Reg.CO_CAN_ISR2_PRIORITY := by
  rw [main_step_communicationLoop b i m hloc hreset]
  obtain ⟨h1, _, h3, h4, h5, _, _⟩ := main_communicationReset_success b i m hok
  refine ⟨h1, h3, h4, h5, ?_, ?_⟩
  · rw [h3, h4]; decide
  · rw [h3, h5]; decide

/-- C8 witness: the first pass after boot, in a build with one CAN module and
in a build with two. -/
theorem C8_bus_priority_above_timer_witness :
    ((main_step build1 input200 (main_entry mem0)).mem Reg.CO_TMR_ISR_PRIORITY <
      (main_step build1 input200 (main_entry mem0)).mem Reg.CO_CAN_ISR_PRIORITY ∧
     (main_step build1 input200 (main_entry mem0)).mem Reg.CO_TMR_ISR_PRIORITY <
      (main_step build1 input200 (main_entry mem0)).mem Reg.CO_CAN_ISR2_PRIORITY) ∧
    ((main_step build2 input200 (main_entry mem0)).mem Reg.CO_TMR_ISR_PRIORITY <
      (main_step build2 input200 (main_entry mem0)).mem Reg.CO_CAN_ISR_PRIORITY ∧
     (main_step build2 input200 (main_entry mem0)).mem Reg.CO_TMR_ISR_PRIORITY <
      (main_step build2 input200 (main_entry mem0)).mem Reg.CO_CAN_ISR2_PRIORITY) :=
  ⟨(C8_bus_priority_above_timer build1 input200 (main_entry mem0) rfl (by decide) rfl).2.2.2.2,
   (C8_bus_priority_above_timer build2 input200 (main_entry mem0) rfl (by decide) rfl).2.2.2.2⟩

/-- C3: for 16-bit values of timer1msPrevious and of the tick counter, the
elapsed-tick value one foreground iteration computes and hands to programAsync
and CO_process is the forward distance (current - previous) mod 2^16, also
when the counter has wrapped (current < previous), and timer1msPrevious
becomes the current counter value. -/
theorem C3_elapsed_ticks_forward_distance (b : Build) (i : Input) (m : Machine)
    (hprev : m.timer1msPrevious < 65536)
    (hcur : m.mem Reg.CO_timer1ms < 65536) :
    (main_normalExecution b i m).trace =
      m.trace ++ normalActions b (iterationTime i m)
        (m.mem Reg.ODA_performance_mainCycleMaxTime)
        (main_timer1msDiff (m.mem Reg.CO_timer1ms) m.timer1msPrevious) ∧
    ((main_timer1msDiff (m.mem Reg.CO_timer1ms) m.timer1msPrevious : Nat) : Int) =
      ((m.mem Reg.CO_timer1ms : Int) - (m.timer1msPrevious : Int)) % 65536 ∧
    main_timer1msDiff (m.mem Reg.CO_timer1ms) m.timer1msPrevious < 65536 ∧
    (m.timer1msPrevious + main_timer1msDiff (m.mem Reg.CO_timer1ms) m.timer1msPrevious)
      % 65536 = m.mem Reg.CO_timer1ms ∧
    (m.timer1msPrevious ≤ m.mem Reg.CO_timer1ms →
      main_timer1msDiff (m.mem Reg.CO_timer1ms) m.timer1msPrevious =
        m.mem Reg.CO_timer1ms - m.timer1msPrevious) ∧
    (m.mem Reg.CO_timer1ms < m.timer1msPrevious →
      main_timer1msDiff (m.mem Reg.CO_timer1ms) m.timer1msPrevious =
        65536 - m.timer1msPrevious + m.mem Reg.CO_timer1ms) ∧
    (main_normalExecution b i m).timer1msPrevious = m.mem Reg.CO_timer1ms := by
  have hd : ((main_timer1msDiff (m.mem Reg.CO_timer1ms) m.timer1msPrevious : Nat) : Int) =
      ((m.mem Reg.CO_timer1ms : Int) - (m.timer1msPrevious : Int)) % 65536 := by
    unfold main_timer1msDiff toU16
    exact Int.toNat_of_nonneg (Int.emod_nonneg _ (by decide))
  refine ⟨main_normalExecution_trace b i m, hd, ?_, ?_, ?_, ?_,
    (main_normalExecution_fields b i m).2.2.1⟩ <;> omega

/-- C3 witness: previous = 65530 and current = 10 give the elapsed value 16. -/
theorem C3_elapsed_ticks_wrap_witness :
    main_timer1msDiff 10 65530 = 16 :=
  (C3_elapsed_ticks_forward_distance build1 input200 machineWrapped
    (by decide) (by decide)).2.2.2.2.2.1 (by decide)

/-- C9: every execution of the body of the foreground loop services the
watchdog three times: first of all, before the cycle-time measurement; after
programAsync and before CO_process; and after CO_process. This holds in each
branch of the cycle-time computation, with or without the EEPROM step, and
for every reset value CO_process returns. -/
theorem C9_watchdog_three_times (b : Build) (i : Input) (m : Machine) :
    (main_normalExecution b i m).trace =
      m.trace ++
        ([Action.ClearWDT,
          Action.write Reg.ODA_performance_mainCycleTime (iterationTime i m)] ++
         (if iterationTime i m > m.mem Reg.ODA_performance_mainCycleMaxTime then
           [Action.write Reg.ODA_performance_mainCycleMaxTime (iterationTime i m)]
          else []) ++
         [Action.programAsync (iterationDiff m),
          Action.ClearWDT,
          Action.CO_process (iterationDiff m),
          Action.ClearWDT] ++
         (if b.USE_EEPROM then [Action.CO_EE_process] else [])) ∧
    (main_normalExecution b i m).trace.count Action.ClearWDT =
      m.trace.count Action.ClearWDT + 3 ∧
    3 ≤ (main_normalExecution b i m).trace.count Action.ClearWDT ∧
    (main_normalExecution b i m).reset = i.CO_process := by
  have ht := main_normalExecution_trace b i m
  have hc : (main_normalExecution b i m).trace.count Action.ClearWDT =
      m.trace.count Action.ClearWDT + 3 := by
    rw [ht, List.count_append]
    unfold normalActions
    by_cases h1 : iterationTime i m > m.mem Reg.ODA_performance_mainCycleMaxTime <;>
    by_cases h2 : b.USE_EEPROM = true <;>
      simp [h1, h2]
  refine ⟨?_, hc, ?_, (main_normalExecution_fields b i m).2.1⟩
  · rw [ht]; rfl
  · omega

/-- C2: entered with reset = CO_RESET_NOT and given a script of N = k + 1
results of CO_process of which the first k are CO_RESET_NOT and the last is
not, the foreground loop stays in the loop after each of the first k
iterations, runs the loop body exactly once per scripted result (N bodies, N
calls of CO_process), and its next step leaves the loop for the head of the
sequencer loop without any further action. -/
theorem C2_loop_runs_exactly_N_iterations (b : Build) (pre : List Input)
    (last next : Input) (m : Machine)
    (hloc : m.loc = Loc.normalLoop)
    (hreset : m.reset = CO_NMT_reset_cmd_t.CO_RESET_NOT)
    (hpre : ∀ i ∈ pre, i.CO_process = CO_NMT_reset_cmd_t.CO_RESET_NOT)
    (hlast : last.CO_process ≠ CO_NMT_reset_cmd_t.CO_RESET_NOT) :
    (∀ k, k ≤ pre.length →
      (main_run b (pre.take k) m).loc = Loc.normalLoop ∧
      (main_run b (pre.take k) m).reset = CO_NMT_reset_cmd_t.CO_RESET_NOT ∧
      processCalls (main_run b (pre.take k) m).trace = processCalls m.trace + k) ∧
    main_run b (pre ++ [last]) m =
      (pre ++ [last]).foldl (fun s i => main_normalExecution b i s) m ∧
    (main_run b (pre ++ [last]) m).loc = Loc.normalLoop ∧
    (main_run b (pre ++ [last]) m).reset = last.CO_process ∧
    processCalls (main_run b (pre ++ [last]) m).trace =
      processCalls m.trace + (pre.length + 1) ∧
    (main_step b next (main_run b (pre ++ [last]) m)).loc = Loc.communicationLoop ∧
    (main_step b next (main_run b (pre ++ [last]) m)).trace =
      (main_run b (pre ++ [last]) m).trace := by
  obtain ⟨h1, h2, h3, h4⟩ := main_run_normal b pre m hloc hreset hpre
  have hf := main_normalExecution_fields b last (main_run b pre m)
  have hrun : main_run b (pre ++ [last]) m = main_normalExecution b last (main_run b pre m) := by
    rw [main_run_append]
    simp only [main_run]
    exact main_step_normalLoop b last _ h2 h3
  have hl : (main_run b (pre ++ [last]) m).loc = Loc.normalLoop := by
    rw [hrun, hf.1, h2]
  have hr : (main_run b (pre ++ [last]) m).reset = last.CO_process := by
    rw [hrun, hf.2.1]
  have hexit : main_step b next (main_run b (pre ++ [last]) m) =
      (main_run b (pre ++ [last]) m).goto Loc.communicationLoop := by
    simp [main_step, hl, hr, hlast]
  refine ⟨?_, ?_, hl, hr, ?_, ?_, ?_⟩
  · intro k hk
    obtain ⟨_, g2, g3, g4⟩ := main_run_normal b (pre.take k) m hloc hreset
      (fun i hi => hpre i (List.mem_of_mem_take hi))
    refine ⟨g2, g3, ?_⟩
    rw [g4, List.length_take, Nat.min_eq_left hk]
  · rw [hrun, h1, List.foldl_append]
    rfl
  · rw [hrun, main_normalExecution_processCalls, h4]
    omega
  · rw [hexit]; rfl
  · rw [hexit]; rfl

/-- C2 witness: after the first pass, a script of three results, the third
being a communication reset, gives three calls of CO_process and then the
return to the sequencer. -/
theorem C2_loop_runs_exactly_N_iterations_witness :
    processCalls (main_run build1 [input200, input200, inputCommReset]
      (main_step build1 input200 (main_entry mem0))).trace =
        processCalls (main_step build1 input200 (main_entry mem0)).trace + 3 ∧
    (main_step build1 input200 (main_run build1 [input200, input200, inputCommReset]
      (main_step build1 input200 (main_entry mem0)))).loc = Loc.communicationLoop :=
  have h := C2_loop_runs_exactly_N_iterations build1 [input200, input200] inputCommReset
    input200 (main_step build1 input200 (main_entry mem0)) rfl rfl
    (by simp [input200]) (by decide)
  ⟨h.2.2.2.2.1, h.2.2.2.2.2.1⟩

/-- C5 (counterexample): a (re)initialization pass in which CO_init fails does
not set the maxima to zero. After a successful pass, one timer interrupt and
one foreground iteration the maxima are 105 and 7; main is back at the head of
the sequencer loop with a communication reset pending; the next pass, whose
CO_init fails, halts with both maxima unchanged and without any store of zero
to either. -/
theorem C5_failed_pass_keeps_maxima :
    machineBeforeSecondPass.loc = Loc.communicationLoop ∧
    machineBeforeSecondPass.reset = CO_NMT_reset_cmd_t.CO_RESET_COMM ∧
    (main_step build1 inputInitFails machineBeforeSecondPass).loc = Loc.halt ∧
    (main_step build1 inputInitFails machineBeforeSecondPass).mem
      Reg.ODA_performance_mainCycleMaxTime = 105 ∧
    (main_step build1 inputInitFails machineBeforeSecondPass).mem
      Reg.ODA_performance_timerCycleMaxTime = 7 ∧
    zeroStores Reg.ODA_performance_mainCycleMaxTime
      (main_step build1 inputInitFails machineBeforeSecondPass).trace =
      zeroStores Reg.ODA_performance_mainCycleMaxTime machineBeforeSecondPass.trace ∧
    zeroStores Reg.ODA_performance_timerCycleMaxTime
      (main_step build1 inputInitFails machineBeforeSecondPass).trace =
      zeroStores Reg.ODA_performance_timerCycleMaxTime machineBeforeSecondPass.trace := by
  decide

/-- C5 (amended): a foreground iteration leaves the main-cycle maximum equal
to the larger of its old value and the newly stored main cycle time, and
leaves the timer-cycle maximum alone; a timer interrupt leaves the
timer-cycle maximum equal to the larger of its old value and the newly stored
timer cycle time, and leaves the main-cycle maximum alone; neither decreases a
maximum nor stores zero to one, and no step of main at the foreground loop
does. A (re)initialization pass in which CO_init returns CO_ERROR_NO stores
zero to each maximum exactly once and leaves both at zero. -/
theorem C5_maxima_monotone_and_reset_on_success (b : Build) (i : Input) (j : IsrInput)
    (m : Machine) :
    ((main_normalExecution b i m).mem Reg.ODA_performance_mainCycleMaxTime =
        max (m.mem Reg.ODA_performance_mainCycleMaxTime)
          ((main_normalExecution b i m).mem Reg.ODA_performance_mainCycleTime) ∧
      (main_normalExecution b i m).mem Reg.ODA_performance_timerCycleMaxTime =
        m.mem Reg.ODA_performance_timerCycleMaxTime) ∧
    ((CO_TimerInterruptHandler b j m).mem Reg.ODA_performance_timerCycleMaxTime =
        max (m.mem Reg.ODA_performance_timerCycleMaxTime)
          ((CO_TimerInterruptHandler b j m).mem Reg.ODA_performance_timerCycleTime) ∧
      (CO_TimerInterruptHandler b j m).mem Reg.ODA_performance_mainCycleMaxTime =
        m.mem Reg.ODA_performance_mainCycleMaxTime ∧
      zeroStores Reg.ODA_performance_mainCycleMaxTime (CO_TimerInterruptHandler b j m).trace =
        zeroStores Reg.ODA_performance_mainCycleMaxTime m.trace ∧
      zeroStores Reg.ODA_performance_timerCycleMaxTime (CO_TimerInterruptHandler b j m).trace =
        zeroStores Reg.ODA_performance_timerCycleMaxTime m.trace) ∧
    (m.loc = Loc.normalLoop →
      m.mem Reg.ODA_performance_mainCycleMaxTime ≤
        (main_step b i m).mem Reg.ODA_performance_mainCycleMaxTime ∧
      m.mem Reg.ODA_performance_timerCycleMaxTime ≤
        (main_step b i m).mem Reg.ODA_performance_timerCycleMaxTime ∧
      zeroStores Reg.ODA_performance_mainCycleMaxTime (main_step b i m).trace =
        zeroStores Reg.ODA_performance_mainCycleMaxTime m.trace ∧
      zeroStores Reg.ODA_performance_timerCycleMaxTime (main_step b i m).trace =
        zeroStores Reg.ODA_performance_timerCycleMaxTime m.trace) ∧
    (m.loc = Loc.communicationLoop → m.reset ≠ CO_NMT_reset_cmd_t.CO_RESET_APP →
      i.CO_init = CO_ReturnError_t.CO_ERROR_NO →
      (main_step b i m).loc = Loc.normalLoop ∧
      (main_step b i m).mem Reg.ODA_performance_mainCycleMaxTime = 0 ∧
      (main_step b i m).mem Reg.ODA_performance_timerCycleMaxTime = 0 ∧
      zeroStores Reg.ODA_performance_mainCycleMaxTime (main_step b i m).trace =
        zeroStores Reg.ODA_performance_mainCycleMaxTime m.trace + 1 ∧
      zeroStores Reg.ODA_performance_timerCycleMaxTime (main_step b i m).trace =
        zeroStores Reg.ODA_performance_timerCycleMaxTime m.trace + 1) := by
  have hbody : ∀ r, r = Reg.ODA_performance_mainCycleMaxTime ∨
      r = Reg.ODA_performance_timerCycleMaxTime →
      zeroStores r (main_normalExecution b i m).trace = zeroStores r m.trace := by
    intro r hr
    have hz := normalActions_zeroStores b (iterationTime i m)
      (m.mem Reg.ODA_performance_mainCycleMaxTime) (iterationDiff m) r
    rw [if_neg (by rcases hr with h | h <;> simp [h])] at hz
    rw [main_normalExecution_trace]
    unfold zeroStores at hz ⊢
    rw [List.count_append, hz]
    rfl
  refine ⟨⟨?_, ?_⟩, ⟨?_, ?_, ?_, ?_⟩, ?_, ?_⟩
  · simp [main_normalExecution_mem]
  · simp [main_normalExecution_mem]
  · simp [CO_TimerInterruptHandler_mem]
  · simp [CO_TimerInterruptHandler_mem]
  · rw [CO_TimerInterruptHandler_trace]
    have hz := (timerActions_zeroStores_max b j
      (m.mem Reg.ODA_performance_timerCycleMaxTime)).1
    unfold zeroStores at hz ⊢
    rw [List.count_append, List.count_append, hz]
    simp [List.count_cons]
  · rw [CO_TimerInterruptHandler_trace]
    have hz := (timerActions_zeroStores_max b j
      (m.mem Reg.ODA_performance_timerCycleMaxTime)).2
    unfold zeroStores at hz ⊢
    rw [List.count_append, List.count_append, hz]
    simp [List.count_cons]
  · intro hloc
    by_cases hreset : m.reset = CO_NMT_reset_cmd_t.CO_RESET_NOT
    · rw [main_step_normalLoop b i m hloc hreset]
      refine ⟨?_, ?_, hbody _ (Or.inl rfl), hbody _ (Or.inr rfl)⟩
      · simp [main_normalExecution_mem]
      · simp [main_normalExecution_mem]
    · have hexit : main_step b i m = m.goto Loc.communicationLoop := by
        simp [main_step, hloc, hreset]
      rw [hexit]
      simp [Machine.goto]
  · intro hloc hreset hok
    rw [main_step_communicationLoop b i m hloc hreset]
    obtain ⟨h1, _, _, _, _, h6, h7⟩ := main_communicationReset_success b i m hok
    refine ⟨h1, h6, h7, ?_, ?_⟩
    · rw [main_communicationReset_trace_success b i m hok]
      unfold zeroStores resetActionsToInit resetActionsAfterInit
      by_cases he : b.USE_EEPROM = true <;> by_cases hc : b.CO_NO_CAN_MODULES ≥ 2 <;>
        simp [he, hc, List.count_cons]
    · rw [main_communicationReset_trace_success b i m hok]
      unfold zeroStores resetActionsToInit resetActionsAfterInit
      by_cases he : b.USE_EEPROM = true <;> by_cases hc : b.CO_NO_CAN_MODULES ≥ 2 <;>
        simp [he, hc, List.count_cons]

/-- C5 witness: the first pass after boot, with CO_init succeeding, leaves
both maxima at zero and stores zero to each exactly once. -/
theorem C5_maxima_reset_on_success_witness :
    (main_step build2 input200 (main_entry mem0)).mem
      Reg.ODA_performance_mainCycleMaxTime = 0 ∧
    (main_step build2 input200 (main_entry mem0)).mem
      Reg.ODA_performance_timerCycleMaxTime = 0 ∧
    zeroStores Reg.ODA_performance_mainCycleMaxTime
      (main_step build2 input200 (main_entry mem0)).trace = 1 ∧
    zeroStores Reg.ODA_performance_timerCycleMaxTime
      (main_step build2 input200 (main_entry mem0)).trace = 1 :=
  ((C5_maxima_monotone_and_reset_on_success build2 input200 isrInput
    (main_entry mem0)).2.2.2 rfl (by decide) rfl).2

/-- C7: every invocation of the timer handler performs, in this order: the
store of 0 to the pending flag, the store of the tick counter plus one modulo
2^16 to the tick counter, the call of CO_process_SYNC_RPDO with period 1000,
the call of program1ms, and the call of CO_process_TPDO with the flag
CO_process_SYNC_RPDO returned and period 1000; none of the three calls occurs
again in the rest of the invocation. -/
theorem C7_timer_handler_order (b : Build) (j : IsrInput) (m : Machine) :
    (CO_TimerInterruptHandler b j m).trace =
      m.trace ++
        ([Action.write Reg.CO_TMR_ISR_FLAG 0,
          Action.write Reg.CO_timer1ms ((m.mem Reg.CO_timer1ms + 1) % 65536),
          Action.CO_process_SYNC_RPDO 1000,
          Action.program1ms,
          Action.CO_process_TPDO j.CO_process_SYNC_RPDO 1000] ++
         timerActionsAfterTPDO b j (m.mem Reg.ODA_performance_timerCycleMaxTime)) ∧
    (CO_TimerInterruptHandler b j m).mem Reg.CO_timer1ms =
      (m.mem Reg.CO_timer1ms + 1) % 65536 ∧
    (timerActionsAfterTPDO b j (m.mem Reg.ODA_performance_timerCycleMaxTime)).countP
      isSYNC_RPDO = 0 ∧
    (timerActionsAfterTPDO b j (m.mem Reg.ODA_performance_timerCycleMaxTime)).countP
      isProgram1ms = 0 ∧
    (timerActionsAfterTPDO b j (m.mem Reg.ODA_performance_timerCycleMaxTime)).countP
      isTPDO = 0 ∧
    (CO_TimerInterruptHandler b j m).trace.countP isSYNC_RPDO =
      m.trace.countP isSYNC_RPDO + 1 ∧
    (CO_TimerInterruptHandler b j m).trace.countP isProgram1ms =
      m.trace.countP isProgram1ms + 1 ∧
    (CO_TimerInterruptHandler b j m).trace.countP isTPDO =
      m.trace.countP isTPDO + 1 := by
  have ht := CO_TimerInterruptHandler_trace b j m
  have hc : (timerActionsAfterTPDO b j (m.mem Reg.ODA_performance_timerCycleMaxTime)).countP
        isSYNC_RPDO = 0 ∧
      (timerActionsAfterTPDO b j (m.mem Reg.ODA_performance_timerCycleMaxTime)).countP
        isProgram1ms = 0 ∧
      (timerActionsAfterTPDO b j (m.mem Reg.ODA_performance_timerCycleMaxTime)).countP
        isTPDO = 0 := by
    unfold timerActionsAfterTPDO
    by_cases h1 : timerCycleTime j > m.mem Reg.ODA_performance_timerCycleMaxTime <;>
    by_cases h2 : j.periodElapsed = true <;>
      simp [h1, h2, List.countP_cons, isSYNC_RPDO, isProgram1ms, isTPDO]
  refine ⟨ht, ?_, hc.1, hc.2.1, hc.2.2, ?_, ?_, ?_⟩
  · simp [CO_TimerInterruptHandler_mem]
  · rw [ht, List.countP_append, List.countP_append, hc.1]
    simp [List.countP_cons, isSYNC_RPDO]
  · rw [ht, List.countP_append, List.countP_append, hc.2.1]
    simp [List.countP_cons, isProgram1ms]
  · rw [ht, List.countP_append, List.countP_append, hc.2.2]
    simp [List.countP_cons, isTPDO]

/-- C6: in every invocation of the timer handler, when the period elapsed
again during the handler (the pending flag is found set after the transmit
step) the handler emits exactly one error report, with CO_EM_ISR_TIMER_OVERFLOW,
CO_EMC_SOFTWARE_INTERNAL and code 0, right after the transmit step, and then
stores 0 to the flag; otherwise it emits no error report. In both cases the
flag is 0 on return and the handler goes on to store the timer cycle time and
to update its maximum. -/
theorem C6_timer_overflow_report (b : Build) (j : IsrInput) (m : Machine) :
    (j.periodElapsed = true →
      (CO_TimerInterruptHandler b j m).trace =
        m.trace ++
          ([Action.write Reg.CO_TMR_ISR_FLAG 0,
            Action.write Reg.CO_timer1ms ((m.mem Reg.CO_timer1ms + 1) % 65536),
            Action.CO_process_SYNC_RPDO 1000,
            Action.program1ms,
            Action.CO_process_TPDO j.CO_process_SYNC_RPDO 1000,
            Action.CO_errorReport b.CO_EM_ISR_TIMER_OVERFLOW b.CO_EMC_SOFTWARE_INTERNAL 0,
            Action.write Reg.CO_TMR_ISR_FLAG 0,
            Action.write Reg.ODA_performance_timerCycleTime (timerCycleTime j)] ++
           (if timerCycleTime j > m.mem Reg.ODA_performance_timerCycleMaxTime then
             [Action.write Reg.ODA_performance_timerCycleMaxTime (timerCycleTime j)]
            else [])) ∧
      (CO_TimerInterruptHandler b j m).trace.countP isErrorReport =
        m.trace.countP isErrorReport + 1) ∧
    (j.periodElapsed = false →
      (CO_TimerInterruptHandler b j m).trace =
        m.trace ++
          ([Action.write Reg.CO_TMR_ISR_FLAG 0,
            Action.write Reg.CO_timer1ms ((m.mem Reg.CO_timer1ms + 1) % 65536),
            Action.CO_process_SYNC_RPDO 1000,
            Action.program1ms,
            Action.CO_process_TPDO j.CO_process_SYNC_RPDO 1000,
            Action.write Reg.ODA_performance_timerCycleTime (timerCycleTime j)] ++
           (if timerCycleTime j > m.mem Reg.ODA_performance_timerCycleMaxTime then
             [Action.write Reg.ODA_performance_timerCycleMaxTime (timerCycleTime j)]
            else [])) ∧
      (CO_TimerInterruptHandler b j m).trace.countP isErrorReport =
        m.trace.countP isErrorReport) ∧
    (CO_TimerInterruptHandler b j m).mem Reg.CO_TMR_ISR_FLAG = 0 ∧
    (CO_TimerInterruptHandler b j m).mem Reg.ODA_performance_timerCycleTime =
      timerCycleTime j ∧
    (CO_TimerInterruptHandler b j m).mem Reg.ODA_performance_timerCycleMaxTime =
      max (m.mem Reg.ODA_performance_timerCycleMaxTime) (timerCycleTime j) := by
  have ht := CO_TimerInterruptHandler_trace b j m
  refine ⟨?_, ?_, ?_, ?_, ?_⟩
  · intro h
    rw [ht]
    unfold timerActionsAfterTPDO
    by_cases h1 : timerCycleTime j > m.mem Reg.ODA_performance_timerCycleMaxTime <;>
      simp [h, h1, List.countP_cons, isErrorReport]
  · intro h
    rw [ht]
    unfold timerActionsAfterTPDO
    by_cases h1 : timerCycleTime j > m.mem Reg.ODA_performance_timerCycleMaxTime <;>
      simp [h, h1, List.countP_cons, isErrorReport]
  · simp [CO_TimerInterruptHandler_mem]
  · simp [CO_TimerInterruptHandler_mem]
  · simp [CO_TimerInterruptHandler_mem]

/-- C6 witness: an overrunning invocation right after the first pass reports
the overflow once; a punctual one reports nothing. -/
theorem C6_timer_overflow_report_witness :
    (CO_TimerInterruptHandler build1 isrInputOverrun
      (main_step build1 input200 (main_entry mem0))).trace.countP isErrorReport =
      (main_step build1 input200 (main_entry mem0)).trace.countP isErrorReport + 1 ∧
    (CO_TimerInterruptHandler build1 isrInput
      (main_step build1 input200 (main_entry mem0))).trace.countP isErrorReport =
      (main_step build1 input200 (main_entry mem0)).trace.countP isErrorReport :=
  ⟨((C6_timer_overflow_report build1 isrInputOverrun
      (main_step build1 input200 (main_entry mem0))).1 rfl).2,
   ((C6_timer_overflow_report build1 isrInput
      (main_step build1 input200 (main_entry mem0))).2.1 rfl).2⟩

/-- C10: for timer readings prev and new of at most 31999 and an elapsed tick
count d of at most 654, with E = d*32000 + new - prev: when new ≥ prev the
stored main cycle time is d*100 + (new - prev)/320, below 2^16, and equals
floor(E/320); when new < prev and d ≥ 1 it is d*100 - (prev - new)/320, not
negative, and equals ceil(E/320); in both cases it differs from E/320 by less
than 1. TMR_TMR_PREV becomes the new reading. -/
theorem C10_main_cycle_time_exact (b : Build) (i : Input) (m : Machine)
    (hprev : m.TMR_TMR_PREV ≤ 31999)
    (hnew : i.CO_TMR_TMR ≤ 31999)
    (hd : iterationDiff m ≤ 654) :
    (m.TMR_TMR_PREV ≤ i.CO_TMR_TMR →
      (main_normalExecution b i m).mem Reg.ODA_performance_mainCycleTime =
        iterationDiff m * 100 + (i.CO_TMR_TMR - m.TMR_TMR_PREV) / 320 ∧
      iterationDiff m * 100 + (i.CO_TMR_TMR - m.TMR_TMR_PREV) / 320 < 65536 ∧
      ⌊((elapsedTimerCounts (iterationDiff m) i.CO_TMR_TMR m.TMR_TMR_PREV : Int) : ℚ) / 320⌋ =
        (((main_normalExecution b i m).mem Reg.ODA_performance_mainCycleTime : Nat) : Int) ∧
      |((((main_normalExecution b i m).mem Reg.ODA_performance_mainCycleTime : Nat) : Int) : ℚ) -
        ((elapsedTimerCounts (iterationDiff m) i.CO_TMR_TMR m.TMR_TMR_PREV : Int) : ℚ) / 320|
        < 1) ∧
    (i.CO_TMR_TMR < m.TMR_TMR_PREV → 1 ≤ iterationDiff m →
      (((main_normalExecution b i m).mem Reg.ODA_performance_mainCycleTime : Nat) : Int) =
        (iterationDiff m : Int) * 100 -
          (((m.TMR_TMR_PREV - i.CO_TMR_TMR) / 320 : Nat) : Int) ∧
      (m.TMR_TMR_PREV - i.CO_TMR_TMR) / 320 ≤ iterationDiff m * 100 ∧
      ⌈((elapsedTimerCounts (iterationDiff m) i.CO_TMR_TMR m.TMR_TMR_PREV : Int) : ℚ) / 320⌉ =
        (((main_normalExecution b i m).mem Reg.ODA_performance_mainCycleTime : Nat) : Int) ∧
      |((((main_normalExecution b i m).mem Reg.ODA_performance_mainCycleTime : Nat) : Int) : ℚ) -
        ((elapsedTimerCounts (iterationDiff m) i.CO_TMR_TMR m.TMR_TMR_PREV : Int) : ℚ) / 320|
        < 1) ∧
    (main_normalExecution b i m).TMR_TMR_PREV = i.CO_TMR_TMR := by
  have hmod : i.CO_TMR_TMR % 65536 = i.CO_TMR_TMR := Nat.mod_eq_of_lt (by omega)
  have hstored : (main_normalExecution b i m).mem Reg.ODA_performance_mainCycleTime =
      main_cycleTime i.CO_TMR_TMR m.TMR_TMR_PREV (iterationDiff m) := by
    rw [main_normalExecution_mem, if_pos rfl, iterationTime, hmod]
  refine ⟨?_, ?_, ?_⟩
  · intro hge
    have hc := main_cycleTime_forward i.CO_TMR_TMR m.TMR_TMR_PREV (iterationDiff m)
      hnew hd hge
    have hfl := floor_div_320
      (elapsedTimerCounts (iterationDiff m) i.CO_TMR_TMR m.TMR_TMR_PREV)
      ((main_cycleTime i.CO_TMR_TMR m.TMR_TMR_PREV (iterationDiff m) : Nat) : Int)
      (by unfold elapsedTimerCounts; omega) (by unfold elapsedTimerCounts; omega)
    rw [hstored]
    exact ⟨hc, by omega, hfl.1, hfl.2⟩
  · intro hlt hd1
    have hc := main_cycleTime_wrapped i.CO_TMR_TMR m.TMR_TMR_PREV (iterationDiff m)
      hprev hd hlt hd1
    have hce := ceil_div_320
      (elapsedTimerCounts (iterationDiff m) i.CO_TMR_TMR m.TMR_TMR_PREV)
      ((main_cycleTime i.CO_TMR_TMR m.TMR_TMR_PREV (iterationDiff m) : Nat) : Int)
      (by unfold elapsedTimerCounts; omega) (by unfold elapsedTimerCounts; omega)
    rw [hstored]
    exact ⟨by omega, hc.2, hce.1, hce.2⟩
  · rw [(main_normalExecution_fields b i m).2.2.2, hmod]

/-- C10 witness: 16 ticks after the previous iteration, from the previous
reading 31000, the reading 31999 stores 1603 and the reading 1600 stores 1509. -/
theorem C10_main_cycle_time_exact_witness :
    (main_normalExecution build1 inputLateInPeriod machineWrapped).mem
      Reg.ODA_performance_mainCycleTime = 16 * 100 + (31999 - 31000) / 320 ∧
    ⌈((elapsedTimerCounts 16 1600 31000 : Int) : ℚ) / 320⌉ =
      (((main_normalExecution build1 inputCommReset machineWrapped).mem
        Reg.ODA_performance_mainCycleTime : Nat) : Int) ∧
    (main_normalExecution build1 inputCommReset machineWrapped).mem
      Reg.ODA_performance_mainCycleTime = 1509 :=
  ⟨((C10_main_cycle_time_exact build1 inputLateInPeriod machineWrapped
      (by decide) (by decide) (by decide)).1 (by decide)).1,
   ((C10_main_cycle_time_exact build1 inputCommReset machineWrapped
      (by decide) (by decide) (by decide)).2.1 (by decide) (by decide)).2.2.1,
   by decide⟩

end CANopenPIC32
